import Mathlib

/-!
# rigwatch: the status publisher and the poll handlers

A shallow embedding of `main.go`:

* `Status`, the record that is polled from the rig and written to the remote
  store, with Go `int64` fields carried as `Int` and `int64` subtraction
  wrapping modulo `2^64`;
* `sendStatus`, the debouncing publisher, as a function from the global
  `prevStatus` and the candidate to the new `prevStatus`, the list of remote
  `Set` calls and the log lines;
* the three poll callbacks `"f"`, `"m"`, `"t"` as functions on the two globals
  `status` and `prevStatus`.
-/

namespace Rigwatch

/-! ## Go `int64` -/

/-- Smallest Go `int64`, `-2^63`. -/
def minInt64 : Int := -9223372036854775808

/-- Largest Go `int64`, `2^63 - 1`. -/
def maxInt64 : Int := 9223372036854775807

/-- The value is representable as a Go `int64`. -/
def inInt64 (x : Int) : Prop := minInt64 ≤ x ∧ x ≤ maxInt64

instance (x : Int) : Decidable (inInt64 x) := by
  unfold inInt64; exact inferInstance

/-- Reduction of a mathematical integer to the `int64` it is stored as
(two's complement wrap-around). -/
def wrapInt64 (x : Int) : Int :=
  (x + 9223372036854775808) % 18446744073709551616 - 9223372036854775808

/-- Go `a - b` on `int64` operands. -/
def subInt64 (a b : Int) : Int := wrapInt64 (a - b)

/-! ## Data model -/

/-- The `Status` struct of `main.go`. -/
structure Status where
  Mode : String
  Frequency : Int
  PTT : Bool
  Updated : Int
  LastPTT : Int
deriving DecidableEq, Repr

/-- All three `int64` fields of a `Status` are representable. -/
def Status.InRange (s : Status) : Prop :=
  inInt64 s.Frequency ∧ inInt64 s.Updated ∧ inInt64 s.LastPTT

instance (s : Status) : Decidable s.InRange := by
  unfold Status.InRange; exact inferInstance

/-- Severity of a zerolog event, as far as `main.go` uses it in the modelled code. -/
inductive Level where
  | debug
  | error
deriving DecidableEq, Repr

/-- One emitted log event: its level and its message. -/
structure LogEvent where
  level : Level
  msg : String
deriving DecidableEq, Repr

/-- The fields of `rp.Response` that the callbacks read. -/
structure Response where
  Result : String
  Data : List String
deriving DecidableEq, Repr

/-! ## `sendStatus` -/

/-- What one call of `sendStatus` leaves behind: the global `prevStatus`, the
values handed to `fbStatus.Set` and the log events, both in order. -/
structure SendResult where
  prevStatus : Option Status
  sets : List Status
  logs : List LogEvent
deriving DecidableEq, Repr

/-- Line 64: `prevStatus != nil && prevStatus.Updated >= status.Updated-4500`. -/
def tooSoon (prevStatus : Option Status) (status : Status) : Bool :=
  match prevStatus with
  | some p => decide (p.Updated ≥ subInt64 status.Updated 4500)
  | none => false

/-- Line 68: `prevStatus != nil && prevStatus.Mode == status.Mode &&
prevStatus.Frequency == status.Frequency && prevStatus.PTT == status.PTT`. -/
def noChange (prevStatus : Option Status) (status : Status) : Bool :=
  match prevStatus with
  | some p =>
    decide (p.Mode = status.Mode) && decide (p.Frequency = status.Frequency)
      && decide (p.PTT = status.PTT)
  | none => false

/-- Line 69: `prevStatus.Updated >= status.Updated-60000`, evaluated only
where `prevStatus` is not nil. -/
def withinMinute (prevStatus : Option Status) (status : Status) : Bool :=
  match prevStatus with
  | some p => decide (p.Updated ≥ subInt64 status.Updated 60000)
  | none => false

/-- Lines 76-84: store the candidate in `prevStatus`, call `fbStatus.Set`, log
an error when the call reports one. `setErr` says whether `Set` fails. -/
def publish (status : Status) (setErr : Bool) (logs : List LogEvent) : SendResult :=
  { prevStatus := some status
    sets := [status]
    logs := if setErr then logs ++ [⟨Level.error, "error updating firebase status"⟩] else logs }

/-- The function `sendStatus` of `main.go`. -/
def sendStatus (prevStatus : Option Status) (status : Status) (setErr : Bool) : SendResult :=
  let l0 : List LogEvent := [⟨Level.debug, "new status"⟩]
  if tooSoon prevStatus status then
    { prevStatus := prevStatus, sets := []
      logs := l0 ++ [⟨Level.debug, "skipping status update, too soon"⟩] }
  else if noChange prevStatus status then
    if withinMinute prevStatus status then
      { prevStatus := prevStatus, sets := []
        logs := l0 ++ [⟨Level.debug, "skipping status update, no change"⟩] }
    else
      publish status setErr
        (l0 ++ [⟨Level.debug, "updating status after 60s to show we\x27re still alive"⟩])
  else
    publish status setErr l0

/-- Successive calls of `sendStatus`, each starting from the `prevStatus` the
call before it left; every candidate comes with the outcome of its `Set`. -/
def sendAll (prevStatus : Option Status) : List (Status × Bool) → SendResult
  | [] => { prevStatus := prevStatus, sets := [], logs := [] }
  | (status, setErr) :: rest =>
    let r := sendStatus prevStatus status setErr
    let r2 := sendAll r.prevStatus rest
    { prevStatus := r2.prevStatus, sets := r.sets ++ r2.sets, logs := r.logs ++ r2.logs }

/-! ## `strconv.ParseInt(s, 10, 64)`

The frequency callback calls the Go standard library. The two library
functions are transcribed for the arguments the callback passes, base `10` and
bit size `64`. A Go string is a byte sequence; the digits and letters the loop
looks for are single bytes below `0x80`, and every byte of a multi-byte
character is `0x80` or more, so testing characters gives the same verdicts as
testing bytes. -/

/-- The two `NumError` causes of `strconv`. -/
inductive NumError where
  | ErrSyntax
  | ErrRange
deriving DecidableEq, Repr

/-- Largest Go `uint64`, `2^64 - 1`; it is `maxVal` of `ParseUint` at bit size 64. -/
def maxUint64 : Nat := 18446744073709551615

/-- The digit loop of `strconv.ParseUint` for base 10 and bit size 64. The
result is the returned number with the error, if any. A byte that is not a
decimal digit ends the loop with a syntax error: a letter stands for a digit of
value 10 or more, which is not below the base, and any other byte is no digit. -/
def parseUintLoop : List Char → Nat → Nat × Option NumError
  | [], n => (n, none)
  | c :: cs, n =>
    if 48 ≤ c.toNat ∧ c.toNat ≤ 57 then
      let d := c.toNat - 48
      -- `cutoff = maxUint64/10 + 1`: at or above it `n*base` overflows
      if n ≥ maxUint64 / 10 + 1 then (maxUint64, some NumError.ErrRange)
      else
        let n10 := n * 10
        let n1 := (n10 + d) % 18446744073709551616
        if n1 < n10 ∨ n1 > maxUint64 then (maxUint64, some NumError.ErrRange)
        else parseUintLoop cs n1
    else (0, some NumError.ErrSyntax)

/-- Go `strconv.ParseUint(s, 10, 64)`. -/
def ParseUint (s : List Char) : Nat × Option NumError :=
  match s with
  | [] => (0, some NumError.ErrSyntax)
  | _ => parseUintLoop s 0

/-- Go `strconv.ParseInt(s, 10, 64)`: the returned `int64` and the error. -/
def ParseInt (s : String) : Int × Option NumError :=
  match s.toList with
  | [] => (0, some NumError.ErrSyntax)
  | c :: cs =>
    let neg : Bool := c = '-'
    let body : List Char := if c = '+' then cs else if c = '-' then cs else c :: cs
    match ParseUint body with
    | (_, some NumError.ErrSyntax) => (0, some NumError.ErrSyntax)
    | (un, _) =>
      -- `cutoff = 1 << 63`
      if !neg ∧ un ≥ 9223372036854775808 then (maxInt64, some NumError.ErrRange)
      else if neg ∧ un > 9223372036854775808 then (minInt64, some NumError.ErrRange)
      else if neg then (wrapInt64 (-(wrapInt64 (un : Int))), none)
      else (wrapInt64 (un : Int), none)

/-! ## The poll callbacks -/

/-- The two package-level variables the callbacks work on. -/
structure Globals where
  status : Status
  prevStatus : Option Status
deriving DecidableEq, Repr

/-- What a callback does to the outside: remote `Set` calls and log events. -/
structure Output where
  sets : List Status
  logs : List LogEvent
deriving DecidableEq, Repr

/-- The callback of poll command `"f"` (lines 143-158). `now` is the reading of
`time.Now().UTC().UnixMilli()`. The result is `none` when `res.Data[0]` is an
index out of range, which stops the program. -/
def pollFreq (g : Globals) (res : Response) (now : Int) : Option (Globals × Output) :=
  if res.Result = "0" then
    match res.Data with
    | [] => none
    | d :: _ =>
      match ParseInt d with
      | (freq, none) =>
        some ({ g with status := { g.status with Frequency := freq, Updated := now } },
              { sets := [], logs := [⟨Level.debug, "freq"⟩] })
      | (_, some _) => some (g, { sets := [], logs := [⟨Level.error, "freq"⟩] })
  else some (g, { sets := [], logs := [⟨Level.error, "freq"⟩] })

/-- The callback of poll command `"m"` (lines 159-169). -/
def pollMode (g : Globals) (res : Response) (now : Int) : Option (Globals × Output) :=
  if res.Result = "0" then
    match res.Data with
    | [] => none
    | d :: _ =>
      some ({ g with status := { g.status with Mode := d, Updated := now } },
            { sets := [], logs := [⟨Level.debug, "mode"⟩] })
  else some (g, { sets := [], logs := [⟨Level.error, "mode"⟩] })

/-- The callback of poll command `"t"` (lines 170-185); `setErr` is the outcome
of the `Set` call inside `sendStatus`, should it be reached. -/
def pollPTT (g : Globals) (res : Response) (now : Int) (setErr : Bool) :
    Option (Globals × Output) :=
  if res.Result = "0" then
    match res.Data with
    | [] => none
    | d :: _ =>
      let s1 : Status := { g.status with PTT := decide (d ≠ "0"), Updated := now }
      let s2 : Status := if s1.PTT then { s1 with LastPTT := s1.Updated } else s1
      let r := sendStatus g.prevStatus s2 setErr
      some ({ status := s2, prevStatus := r.prevStatus },
            { sets := r.sets, logs := r.logs ++ [⟨Level.debug, "ptt"⟩] })
  else some (g, { sets := [], logs := [⟨Level.error, "ptt"⟩] })

/-- The three entries of `polls`. -/
inductive Poll where
  | freq
  | mode
  | ptt
deriving DecidableEq, Repr

/-- The command letter each entry of `polls` is registered with. -/
def Poll.command : Poll → String
  | Poll.freq => "f"
  | Poll.mode => "m"
  | Poll.ptt => "t"

/-- Run the callback of one entry of `polls` on a response. -/
def Poll.respond (q : Poll) (g : Globals) (res : Response) (now : Int) (setErr : Bool) :
    Option (Globals × Output) :=
  match q with
  | Poll.freq => pollFreq g res now
  | Poll.mode => pollMode g res now
  | Poll.ptt => pollPTT g res now setErr

/-! ## Arithmetic of the two guards -/

theorem wrapInt64_of_inInt64 (x : Int) (h : inInt64 x) : wrapInt64 x = x := by
  unfold inInt64 minInt64 maxInt64 at h
  unfold wrapInt64
  omega

theorem subInt64_of_le (a k : Int) (ha : inInt64 a) (hk : 0 ≤ k) (hlo : minInt64 + k ≤ a) :
    subInt64 a k = a - k := by
  unfold inInt64 minInt64 maxInt64 at ha
  unfold minInt64 at hlo
  unfold subInt64 wrapInt64
  omega

theorem sendStatus_none (status : Status) (setErr : Bool) :
    sendStatus none status setErr = publish status setErr [⟨Level.debug, "new status"⟩] := by
  simp [sendStatus, tooSoon, noChange]

theorem publish_sets (status : Status) (setErr : Bool) (logs : List LogEvent) :
    (publish status setErr logs).sets = [status] := rfl

theorem publish_prevStatus (status : Status) (setErr : Bool) (logs : List LogEvent) :
    (publish status setErr logs).prevStatus = some status := rfl

/-- Every call of `sendStatus` either leaves `prevStatus` alone and writes
nothing, or stores the candidate and writes exactly it. -/
theorem sendStatus_cases (prevStatus : Option Status) (status : Status) (setErr : Bool) :
    ((sendStatus prevStatus status setErr).sets = [] ∧
        (sendStatus prevStatus status setErr).prevStatus = prevStatus) ∨
      ((sendStatus prevStatus status setErr).sets = [status] ∧
        (sendStatus prevStatus status setErr).prevStatus = some status) := by
  unfold sendStatus
  split_ifs <;> simp [publish]

/-- With a snapshot present and the subtraction in range, the first guard is
`status.Updated ≤ p.Updated + 4500`. -/
theorem tooSoon_iff (p status : Status) (hc : inInt64 status.Updated)
    (hlo : minInt64 + 4500 ≤ status.Updated) :
    tooSoon (some p) status = true ↔ status.Updated ≤ p.Updated + 4500 := by
  simp only [tooSoon, decide_eq_true_eq, subInt64_of_le status.Updated 4500 hc (by decide) hlo]
  constructor <;> intro h <;> omega

/-- With a snapshot present and the subtraction in range, the inner guard is
`status.Updated ≤ p.Updated + 60000`. -/
theorem withinMinute_iff (p status : Status) (hc : inInt64 status.Updated)
    (hlo : minInt64 + 60000 ≤ status.Updated) :
    withinMinute (some p) status = true ↔ status.Updated ≤ p.Updated + 60000 := by
  simp only [withinMinute, decide_eq_true_eq,
    subInt64_of_le status.Updated 60000 hc (by decide) hlo]
  constructor <;> intro h <;> omega

theorem noChange_iff (p status : Status) :
    noChange (some p) status = true ↔
      p.Mode = status.Mode ∧ p.Frequency = status.Frequency ∧ p.PTT = status.PTT := by
  simp [noChange, and_assoc]

/-! ## The publish decision -/

/-- Outside the range of the clock: for a candidate stamped `-2^63` the `int64`
subtraction `status.Updated-4500` wraps around, so against a snapshot at
`updatedAt = 0` neither guard fires. The callback stamps the candidate with
`time.Now().UTC().UnixMilli()`, which is nowhere near that value. -/
theorem sendStatus_tooSoon_wraps :
    (Status.mk "USB" 14200000 false 0 0).InRange ∧
    (Status.mk "USB" 14200000 false (-9223372036854775808) 0).InRange ∧
    (Status.mk "USB" 14200000 false (-9223372036854775808) 0).Updated
      < (Status.mk "USB" 14200000 false 0 0).Updated + 4500 ∧
    (sendStatus (some (Status.mk "USB" 14200000 false 0 0))
      (Status.mk "USB" 14200000 false (-9223372036854775808) 0) false).sets
      = [Status.mk "USB" 14200000 false (-9223372036854775808) 0] ∧
    (sendStatus (some (Status.mk "USB" 14200000 false 0 0))
      (Status.mk "USB" 14200000 false (-9223372036854775808) 0) false).prevStatus
      = some (Status.mk "USB" 14200000 false (-9223372036854775808) 0) := by
  decide

/-- C2, counterexample: a candidate with a changed transmitting flag exactly
4500 ms after the snapshot is not written; the first guard still holds at
equality. -/
theorem sendStatus_change_at_4500_skipped :
    (Status.mk "USB" 14200000 false 0 0).InRange ∧
    (Status.mk "USB" 14200000 true 4500 4500).InRange ∧
    (Status.mk "USB" 14200000 true 4500 4500).PTT ≠ (Status.mk "USB" 14200000 false 0 0).PTT ∧
    (Status.mk "USB" 14200000 true 4500 4500).Updated
      - (Status.mk "USB" 14200000 false 0 0).Updated ≥ 4500 ∧
    (sendStatus (some (Status.mk "USB" 14200000 false 0 0))
      (Status.mk "USB" 14200000 true 4500 4500) false).sets = [] ∧
    (sendStatus (some (Status.mk "USB" 14200000 false 0 0))
      (Status.mk "USB" 14200000 true 4500 4500) false).prevStatus
      = some (Status.mk "USB" 14200000 false 0 0) := by
  decide

/-- C2, amended: for a present snapshot `p` and a candidate that differs from
it in mode, frequency or transmitting (the two `updatedAt` being `int64`
values, as the field type has it), `sendStatus` writes the candidate and
stores it when `status.updatedAt - p.updatedAt > 4500`; at exactly 4500 it
writes nothing and keeps the snapshot. -/
theorem sendStatus_publishes_change (p status : Status) (setErr : Bool)
    (hp : inInt64 p.Updated) (hc : inInt64 status.Updated)
    (hne : p.Mode ≠ status.Mode ∨ p.Frequency ≠ status.Frequency ∨ p.PTT ≠ status.PTT) :
    (status.Updated - p.Updated > 4500 →
      (sendStatus (some p) status setErr).sets = [status] ∧
        (sendStatus (some p) status setErr).prevStatus = some status) ∧
    (status.Updated - p.Updated = 4500 →
      (sendStatus (some p) status setErr).sets = [] ∧
        (sendStatus (some p) status setErr).prevStatus = some p) := by
  have hpl : minInt64 ≤ p.Updated := hp.1
  have hnc : noChange (some p) status = false := by
    rw [Bool.eq_false_iff, Ne, noChange_iff]
    rintro ⟨h1, h2, h3⟩
    rcases hne with h | h | h
    · exact h h1
    · exact h h2
    · exact h h3
  constructor
  · intro h
    have hts : tooSoon (some p) status = false := by
      rw [Bool.eq_false_iff, Ne, tooSoon_iff p status hc (by omega)]
      omega
    simp [sendStatus, hts, hnc, publish]
  · intro h
    have hts : tooSoon (some p) status = true :=
      (tooSoon_iff p status hc (by omega)).2 (by omega)
    simp [sendStatus, hts]

theorem sendStatus_publishes_change_witness :
    (sendStatus (some (Status.mk "USB" 14200000 false 0 0))
        (Status.mk "USB" 14200000 true 5000 5000) false).sets
        = [Status.mk "USB" 14200000 true 5000 5000] ∧
      (sendStatus (some (Status.mk "USB" 14200000 false 0 0))
        (Status.mk "USB" 14200000 true 5000 5000) false).prevStatus
        = some (Status.mk "USB" 14200000 true 5000 5000) :=
  (sendStatus_publishes_change (Status.mk "USB" 14200000 false 0 0)
    (Status.mk "USB" 14200000 true 5000 5000) false (by decide) (by decide)
    (by decide)).1 (by decide)

/-- C3, counterexample: an unchanged candidate exactly 60000 ms after the
snapshot is not written; the inner guard still holds at equality. -/
theorem sendStatus_heartbeat_at_60000_skipped :
    (Status.mk "USB" 14200000 false 0 0).InRange ∧
    (Status.mk "USB" 14200000 false 60000 0).InRange ∧
    (Status.mk "USB" 14200000 false 60000 0).Updated
      - (Status.mk "USB" 14200000 false 0 0).Updated ≥ 60000 ∧
    (sendStatus (some (Status.mk "USB" 14200000 false 0 0))
      (Status.mk "USB" 14200000 false 60000 0) false).sets = [] ∧
    (sendStatus (some (Status.mk "USB" 14200000 false 0 0))
      (Status.mk "USB" 14200000 false 60000 0) false).prevStatus
      = some (Status.mk "USB" 14200000 false 0 0) := by
  decide

/-- C3, amended: for a present snapshot `p` and a candidate with the same
mode, frequency and transmitting flag (the two `updatedAt` being `int64`
values, as the field type has it), `sendStatus` writes the candidate and
stores it when `status.updatedAt - p.updatedAt > 60000`; at exactly 60000 it
writes nothing and keeps the snapshot. -/
theorem sendStatus_heartbeat (p status : Status) (setErr : Bool)
    (hp : inInt64 p.Updated) (hc : inInt64 status.Updated)
    (hm : p.Mode = status.Mode) (hf : p.Frequency = status.Frequency)
    (ht : p.PTT = status.PTT) :
    (status.Updated - p.Updated > 60000 →
      (sendStatus (some p) status setErr).sets = [status] ∧
        (sendStatus (some p) status setErr).prevStatus = some status) ∧
    (status.Updated - p.Updated = 60000 →
      (sendStatus (some p) status setErr).sets = [] ∧
        (sendStatus (some p) status setErr).prevStatus = some p) := by
  have hpl : minInt64 ≤ p.Updated := hp.1
  have hnc : noChange (some p) status = true := (noChange_iff p status).2 ⟨hm, hf, ht⟩
  constructor
  · intro h
    have hts : tooSoon (some p) status = false := by
      rw [Bool.eq_false_iff, Ne, tooSoon_iff p status hc (by omega)]
      omega
    have hwm : withinMinute (some p) status = false := by
      rw [Bool.eq_false_iff, Ne, withinMinute_iff p status hc (by omega)]
      omega
    simp [sendStatus, hts, hnc, hwm, publish]
  · intro h
    have hts : tooSoon (some p) status = false := by
      rw [Bool.eq_false_iff, Ne, tooSoon_iff p status hc (by omega)]
      omega
    have hwm : withinMinute (some p) status = true :=
      (withinMinute_iff p status hc (by omega)).2 (by omega)
    simp [sendStatus, hts, hnc, hwm]

theorem sendStatus_heartbeat_witness :
    (sendStatus (some (Status.mk "USB" 14200000 false 0 0))
        (Status.mk "USB" 14200000 false 61000 0) true).sets
        = [Status.mk "USB" 14200000 false 61000 0] ∧
      (sendStatus (some (Status.mk "USB" 14200000 false 0 0))
        (Status.mk "USB" 14200000 false 61000 0) true).prevStatus
        = some (Status.mk "USB" 14200000 false 61000 0) :=
  (sendStatus_heartbeat (Status.mk "USB" 14200000 false 0 0)
    (Status.mk "USB" 14200000 false 61000 0) true (by decide) (by decide)
    rfl rfl rfl).1 (by decide)

/-- Outside the range of the clock: for a candidate stamped `-2^63 + 5000` the
`int64` subtraction `status.Updated-60000` wraps around, so against a snapshot
at `updatedAt = -2^63` the inner guard does not fire. -/
theorem sendStatus_noChange_wraps :
    (Status.mk "USB" 14200000 false (-9223372036854775808) 0).InRange ∧
    (Status.mk "USB" 14200000 false (-9223372036854770808) 0).InRange ∧
    4500 ≤ (Status.mk "USB" 14200000 false (-9223372036854770808) 0).Updated
      - (Status.mk "USB" 14200000 false (-9223372036854775808) 0).Updated ∧
    (Status.mk "USB" 14200000 false (-9223372036854770808) 0).Updated
      - (Status.mk "USB" 14200000 false (-9223372036854775808) 0).Updated < 60000 ∧
    (sendStatus (some (Status.mk "USB" 14200000 false (-9223372036854775808) 0))
      (Status.mk "USB" 14200000 false (-9223372036854770808) 0) false).sets
      = [Status.mk "USB" 14200000 false (-9223372036854770808) 0] ∧
    (sendStatus (some (Status.mk "USB" 14200000 false (-9223372036854775808) 0))
      (Status.mk "USB" 14200000 false (-9223372036854770808) 0) false).prevStatus
      = some (Status.mk "USB" 14200000 false (-9223372036854770808) 0) := by
  decide

/-- C5: with no previous snapshot (`prevStatus` nil), `sendStatus` writes the
candidate, exactly once, and `prevStatus` becomes present and equal to the
candidate, for every candidate and either outcome of the write. -/
theorem sendStatus_first_observation (status : Status) (setErr : Bool) :
    (sendStatus none status setErr).sets = [status] ∧
      (sendStatus none status setErr).prevStatus = some status ∧
      (sendStatus none status setErr).prevStatus.isSome = true := by
  simp [sendStatus_none, publish]

/-- C7: whenever `sendStatus` issues the remote write, whether the snapshot
before was absent or present, `prevStatus` afterwards is the candidate (all
five fields), the write carries the candidate, and `prevStatus` and the writes
are the same whether `Set` fails or succeeds. -/
theorem sendStatus_snapshot_on_publish (prevStatus : Option Status) (status : Status)
    (setErr : Bool) (h : (sendStatus prevStatus status setErr).sets ≠ []) :
    (sendStatus prevStatus status setErr).prevStatus = some status ∧
      (sendStatus prevStatus status setErr).sets = [status] ∧
      (sendStatus prevStatus status true).prevStatus
        = (sendStatus prevStatus status false).prevStatus ∧
      (sendStatus prevStatus status true).sets = (sendStatus prevStatus status false).sets := by
  have hind : ∀ e1 e2 : Bool,
      (sendStatus prevStatus status e1).prevStatus = (sendStatus prevStatus status e2).prevStatus ∧
      (sendStatus prevStatus status e1).sets = (sendStatus prevStatus status e2).sets := by
    intro e1 e2
    unfold sendStatus
    split_ifs <;> simp [publish]
  rcases sendStatus_cases prevStatus status setErr with ⟨h0, _⟩ | ⟨h1, h2⟩
  · exact absurd h0 h
  · exact ⟨h2, h1, (hind true false).1, (hind true false).2⟩

theorem sendStatus_snapshot_on_publish_witness :
    (sendStatus (some (Status.mk "USB" 14200000 false 0 0))
        (Status.mk "CW" 7030000 true 5000 5000) true).prevStatus
        = some (Status.mk "CW" 7030000 true 5000 5000) ∧
      (sendStatus (some (Status.mk "USB" 14200000 false 0 0))
        (Status.mk "CW" 7030000 true 5000 5000) true).sets
        = [Status.mk "CW" 7030000 true 5000 5000] ∧
      (sendStatus (some (Status.mk "USB" 14200000 false 0 0))
        (Status.mk "CW" 7030000 true 5000 5000) true).prevStatus
        = (sendStatus (some (Status.mk "USB" 14200000 false 0 0))
        (Status.mk "CW" 7030000 true 5000 5000) false).prevStatus ∧
      (sendStatus (some (Status.mk "USB" 14200000 false 0 0))
        (Status.mk "CW" 7030000 true 5000 5000) true).sets
        = (sendStatus (some (Status.mk "USB" 14200000 false 0 0))
        (Status.mk "CW" 7030000 true 5000 5000) false).sets :=
  sendStatus_snapshot_on_publish (some (Status.mk "USB" 14200000 false 0 0))
    (Status.mk "CW" 7030000 true 5000 5000) true (by decide)

/-! ## Repeated polls without a change -/

/-- Outside the range of the clock: where the two subtractions wrap around, an
unchanged candidate 5000 ms after a snapshot at `updatedAt = -2^63` is
written, and an unchanged candidate stamped `-2^63` is written again when fed
right after it was written. -/
theorem sendAll_spacing_wraps :
    (Status.mk "USB" 14200000 false (-9223372036854775808) 0).InRange ∧
    (Status.mk "USB" 14200000 false (-9223372036854770808) 0).InRange ∧
    (sendAll (some (Status.mk "USB" 14200000 false (-9223372036854775808) 0))
      [(Status.mk "USB" 14200000 false (-9223372036854770808) 0, false)]).sets
      = [Status.mk "USB" 14200000 false (-9223372036854770808) 0] ∧
    (Status.mk "USB" 14200000 false (-9223372036854770808) 0).Updated
      - (Status.mk "USB" 14200000 false (-9223372036854775808) 0).Updated < 60000 ∧
    (sendAll (some (Status.mk "USB" 14200000 false 0 0))
      [(Status.mk "USB" 14200000 false (-9223372036854775808) 0, false),
       (Status.mk "USB" 14200000 false (-9223372036854775808) 0, false)]).sets
      = [Status.mk "USB" 14200000 false (-9223372036854775808) 0,
         Status.mk "USB" 14200000 false (-9223372036854775808) 0] := by
  decide

/-- A wrapped value is always a representable `int64`. -/
theorem wrapInt64_inInt64 (x : Int) : inInt64 (wrapInt64 x) := by
  unfold inInt64 minInt64 maxInt64 wrapInt64
  omega

/-- The digit loop ends without error only on decimal digits. -/
theorem parseUintLoop_ok_digits (cs : List Char) :
    ∀ n : Nat, (parseUintLoop cs n).2 = none → ∀ x ∈ cs, 48 ≤ x.toNat ∧ x.toNat ≤ 57 := by
  induction cs with
  | nil => intro n _ x hx; simp at hx
  | cons c cs ih =>
    intro n h x hx
    simp only [parseUintLoop] at h
    split_ifs at h with hdig hcut hov
    rcases List.mem_cons.1 hx with rfl | hx
    · exact hdig
    · exact ih _ h x hx

/-- A range error of the digit loop comes with the value `maxUint64`. -/
theorem parseUintLoop_range_value (cs : List Char) :
    ∀ n : Nat, (parseUintLoop cs n).2 = some NumError.ErrRange →
      (parseUintLoop cs n).1 = maxUint64 := by
  induction cs with
  | nil => intro n h; simp [parseUintLoop] at h
  | cons c cs ih =>
    intro n h
    simp only [parseUintLoop] at h ⊢
    split_ifs at h ⊢ with hdig hcut hov
    all_goals first
      | rfl
      | exact ih _ h
      | exact absurd h (by simp)

theorem ParseUint_range_value (cs : List Char)
    (h : (ParseUint cs).2 = some NumError.ErrRange) : (ParseUint cs).1 = maxUint64 := by
  cases cs with
  | nil => simp [ParseUint] at h
  | cons c cs => exact parseUintLoop_range_value (c :: cs) 0 h

theorem ParseUint_ok_digits (cs : List Char) (h : (ParseUint cs).2 = none) :
    cs ≠ [] ∧ ∀ x ∈ cs, 48 ≤ x.toNat ∧ x.toNat ≤ 57 := by
  cases cs with
  | nil => simp [ParseUint] at h
  | cons c cs => exact ⟨by simp, parseUintLoop_ok_digits (c :: cs) 0 h⟩

/-- When `ParseInt` reports no error, the number is a representable `int64`
and the text is one or more decimal digits, optionally after one sign: the
empty string, a lone sign and text with any other character are errors. -/
theorem ParseInt_ok_shape (s : String) (n : Int) (h : ParseInt s = (n, none)) :
    inInt64 n ∧ ∃ c cs, s.toList = c :: cs ∧
      (∀ x ∈ cs, 48 ≤ x.toNat ∧ x.toNat ≤ 57) ∧
      ((c = '+' ∨ c = '-') ∧ cs ≠ [] ∨ (48 ≤ c.toNat ∧ c.toNat ≤ 57)) := by
  unfold ParseInt at h
  split at h
  · simp at h
  · rename_i c cs hs
    simp only at h
    split at h
    · simp at h
    · rename_i un err hnot hpu
      have herr : err = none := by
        rcases err with _ | e
        · rfl
        · exfalso
          cases e with
          | ErrSyntax => exact hnot rfl
          | ErrRange =>
            have hv := ParseUint_range_value _ (by rw [hpu])
            rw [hpu] at hv
            simp only [maxUint64] at hv
            subst hv
            by_cases hneg : c = '-' <;> simp [hneg] at h
      subst herr
      have hdig := ParseUint_ok_digits _ (by rw [hpu])
      constructor
      · split_ifs at h
        all_goals first
          | (simp only [Prod.mk.injEq, and_true] at h
             rw [← h]
             exact wrapInt64_inInt64 _)
          | simp at h
      · refine ⟨c, cs, hs, ?_, ?_⟩
        · by_cases hp : c = '+'
          · simpa [hp] using hdig.2
          · by_cases hm : c = '-'
            · simpa [hp, hm] using hdig.2
            · have := hdig.2
              simp only [hp, hm, if_false] at this
              exact fun x hx => this x (List.mem_cons_of_mem _ hx)
        · by_cases hp : c = '+'
          · left
            exact ⟨Or.inl hp, by simpa [hp] using hdig.1⟩
          · by_cases hm : c = '-'
            · left
              exact ⟨Or.inr hm, by simpa [hp, hm] using hdig.1⟩
            · right
              have := hdig.2
              simp only [hp, hm, if_false] at this
              exact this c (List.mem_cons_self _ _)

/-! ## The poll callbacks -/

/-- C8: on a success response (`Result` is `"0"`) with first datum `d`, the
transmit-state callback returns, sets `PTT` to `d != "0"`, sets `Updated` to
the clock reading, leaves `Mode` and `Frequency`, and sets `LastPTT` to the
new `Updated` when `d != "0"` while keeping the prior `LastPTT` when
`d == "0"`. -/
theorem pollPTT_success (g : Globals) (res : Response) (d : String) (rest : List String)
    (now : Int) (setErr : Bool) (hres : res.Result = "0") (hd : res.Data = d :: rest) :
    ∃ g2 out, pollPTT g res now setErr = some (g2, out) ∧
      g2.status.PTT = decide (d ≠ "0") ∧
      g2.status.Updated = now ∧
      g2.status.Mode = g.status.Mode ∧
      g2.status.Frequency = g.status.Frequency ∧
      (d ≠ "0" → g2.status.LastPTT = g2.status.Updated) ∧
      (d = "0" → g2.status.LastPTT = g.status.LastPTT) := by
  by_cases hz : d = "0"
  · simp [pollPTT, hres, hd, hz]
  · simp [pollPTT, hres, hd, hz]

theorem pollPTT_success_witness :
    ∃ g2 out,
      pollPTT ⟨Status.mk "USB" 14200000 false 1000 500, none⟩ ⟨"0", ["1"]⟩ 2000 false
        = some (g2, out) ∧
      g2.status.PTT = decide ("1" ≠ "0") ∧
      g2.status.Updated = 2000 ∧
      g2.status.Mode = "USB" ∧
      g2.status.Frequency = 14200000 ∧
      ("1" ≠ "0" → g2.status.LastPTT = g2.status.Updated) ∧
      ("1" = "0" → g2.status.LastPTT = 500) :=
  pollPTT_success ⟨Status.mk "USB" 14200000 false 1000 500, none⟩ ⟨"0", ["1"]⟩ "1" [] 2000
    false rfl rfl

/-- C9: on a success response (`Result` is `"0"`) whose first datum `d` makes
`strconv.ParseInt(d, 10, 64)` return an error, the frequency callback leaves
both globals, hence every field of `status`, as they were and logs at error
level; when `ParseInt` returns `n` without error, the callback sets
`Frequency` to `n` and `Updated` to the clock reading, changes nothing else and
logs at debug level. -/
theorem pollFreq_success (g : Globals) (res : Response) (d : String) (rest : List String)
    (now : Int) (hres : res.Result = "0") (hd : res.Data = d :: rest) :
    ((ParseInt d).2 ≠ none →
      pollFreq g res now = some (g, { sets := [], logs := [⟨Level.error, "freq"⟩] })) ∧
    (∀ n : Int, ParseInt d = (n, none) →
      pollFreq g res now =
        some ({ status := { Mode := g.status.Mode, Frequency := n, PTT := g.status.PTT,
                            Updated := now, LastPTT := g.status.LastPTT },
                prevStatus := g.prevStatus },
              { sets := [], logs := [⟨Level.debug, "freq"⟩] })) := by
  constructor
  · intro h
    rcases hp : ParseInt d with ⟨v, _ | err⟩
    · rw [hp] at h
      exact absurd rfl h
    · simp [pollFreq, hres, hd, hp]
  · intro n hp
    simp [pollFreq, hres, hd, hp]

theorem pollFreq_success_witness :
    (ParseInt "abc").2 = some NumError.ErrSyntax ∧
    (ParseInt "").2 = some NumError.ErrSyntax ∧
    (ParseInt "9223372036854775808").2 = some NumError.ErrRange ∧
    pollFreq ⟨Status.mk "USB" 14200000 false 1000 500, none⟩ ⟨"0", ["abc"]⟩ 2000
      = some (⟨Status.mk "USB" 14200000 false 1000 500, none⟩,
              { sets := [], logs := [⟨Level.error, "freq"⟩] }) ∧
    pollFreq ⟨Status.mk "USB" 14200000 false 1000 500, none⟩ ⟨"0", ["7100000"]⟩ 2000
      = some (⟨Status.mk "USB" 7100000 false 2000 500, none⟩,
              { sets := [], logs := [⟨Level.debug, "freq"⟩] }) :=
  ⟨by decide, by decide, by decide,
   (pollFreq_success ⟨Status.mk "USB" 14200000 false 1000 500, none⟩ ⟨"0", ["abc"]⟩ "abc" []
      2000 rfl rfl).1 (by decide),
   (pollFreq_success ⟨Status.mk "USB" 14200000 false 1000 500, none⟩ ⟨"0", ["7100000"]⟩
      "7100000" [] 2000 rfl rfl).2 7100000 (by decide)⟩

/-- C10, counterexample: with `PTT` already true and `LastPTT = 100`, the
transmit-state callback answering `"1"` at clock reading 200 moves `LastPTT`
to 200 although `PTT` was not false before. -/
theorem pollPTT_restamps_while_transmitting :
    (Poll.respond Poll.ptt ⟨Status.mk "USB" 14200000 true 100 100, none⟩ ⟨"0", ["1"]⟩ 200
        false).map (fun r => (r.1.status.LastPTT, r.1.status.PTT))
      = some (200, true) ∧
    (Globals.mk (Status.mk "USB" 14200000 true 100 100) none).status.LastPTT = 100 ∧
    (Globals.mk (Status.mk "USB" 14200000 true 100 100) none).status.PTT = true := by
  decide

/-- C10, amended: for each of the three callbacks, every response and every
clock reading, if the callback returns and `LastPTT` afterwards differs from
`LastPTT` before, then the callback is the transmit-state one, the response
was a success, `PTT` is true afterwards (it may have been true before as
well), and `LastPTT` and `Updated` are both the clock reading. -/
theorem respond_lastPTT_changes (q : Poll) (g g2 : Globals) (out : Output) (res : Response)
    (now : Int) (setErr : Bool) (hrun : q.respond g res now setErr = some (g2, out))
    (hne : g2.status.LastPTT ≠ g.status.LastPTT) :
    q = Poll.ptt ∧ res.Result = "0" ∧ g2.status.PTT = true ∧
      g2.status.LastPTT = now ∧ g2.status.Updated = now := by
  cases q with
  | freq =>
    exfalso
    apply hne
    simp only [Poll.respond, pollFreq] at hrun
    split_ifs at hrun
    · split at hrun
      · exact absurd hrun (by simp)
      · split at hrun <;> (simp only [Option.some.injEq, Prod.mk.injEq] at hrun; rw [← hrun.1])
    · simp only [Option.some.injEq, Prod.mk.injEq] at hrun
      rw [← hrun.1]
  | mode =>
    exfalso
    apply hne
    simp only [Poll.respond, pollMode] at hrun
    split_ifs at hrun
    · split at hrun
      · exact absurd hrun (by simp)
      · simp only [Option.some.injEq, Prod.mk.injEq] at hrun
        rw [← hrun.1]
    · simp only [Option.some.injEq, Prod.mk.injEq] at hrun
      rw [← hrun.1]
  | ptt =>
    simp only [Poll.respond, pollPTT] at hrun
    split_ifs at hrun with hres
    · split at hrun
      · exact absurd hrun (by simp)
      · rename_i d rest hd
        simp only [Option.some.injEq, Prod.mk.injEq] at hrun
        obtain ⟨hg, _⟩ := hrun
        subst hg
        by_cases hz : d = "0"
        · exact absurd (by simp [hz]) hne
        · simp [hz, hres]
    · simp only [Option.some.injEq, Prod.mk.injEq] at hrun
      exact absurd (by rw [← hrun.1]) hne

theorem respond_lastPTT_changes_witness :
    Poll.ptt = Poll.ptt ∧ (Response.mk "0" ["1"]).Result = "0" ∧
      (Globals.mk (Status.mk "USB" 14200000 true 200 200)
        (some (Status.mk "USB" 14200000 true 200 200))).status.PTT = true ∧
      (Globals.mk (Status.mk "USB" 14200000 true 200 200)
        (some (Status.mk "USB" 14200000 true 200 200))).status.LastPTT = 200 ∧
      (Globals.mk (Status.mk "USB" 14200000 true 200 200)
        (some (Status.mk "USB" 14200000 true 200 200))).status.Updated = 200 :=
  respond_lastPTT_changes Poll.ptt ⟨Status.mk "USB" 14200000 false 100 100, none⟩
    ⟨Status.mk "USB" 14200000 true 200 200, some (Status.mk "USB" 14200000 true 200 200)⟩
    ⟨[Status.mk "USB" 14200000 true 200 200], [⟨Level.debug, "new status"⟩, ⟨Level.debug, "ptt"⟩]⟩
    ⟨"0", ["1"]⟩ 200 false (by decide) (by decide)

end Rigwatch
